import Mathlib

/-!
Shallow embedding of the EMLL/ELL sources:
- `src/libraries/features/src/IncrementalVarianceFeature.cpp`
- `src/unnamed/part_000` (IROptimizer.cpp, emitters)

`double` values are modelled as exact rationals (ℚ); both execution strategies
under comparison perform the same field operations, so refinement statements
are stated over ℚ.  Components of the repository that are not among the
provided sources (the `BufferedFeature` buffer helpers, the primitive layers,
`Model::EmplaceLayer`, `StringUtil::ParseInt`, the LLVM pass managers) are
modelled from the specification; their doc comments say so.
-/

namespace Ell

/-- Error codes from `utilities::ExceptionErrorCodes` used by the translated
sources. -/
inductive ExceptionErrorCode where
  | invalidArgument
  | illegalState
  | badStringFormat
  deriving DecidableEq, Repr

/-- `utilities::Exception`: an error code together with a message. -/
structure EmllException where
  code : ExceptionErrorCode
  message : String
  deriving DecidableEq, Repr

/-- `std::vector<double>::resize(n)`: truncate to `n` elements, or extend with
zeros up to length `n`. -/
def resizeZero (l : List ℚ) (n : ℕ) : List ℚ :=
  l.take n ++ List.replicate (n - l.length) 0

/-!
## Interpreted evaluator: `IncrementalVarianceFeature::ComputeOutput`

The mutable per-feature state (`BufferedFeature`'s row-sample buffer together
with `_runningSum`, `_runningSumSq`, `_outputDimension`) is made explicit.
-/

/-- The mutable state of an `IncrementalVarianceFeature` object: the
`BufferedFeature` sample buffer (most recent sample first) and the
accumulator members `_runningSum`, `_runningSumSq`, `_outputDimension`. -/
structure VarianceState where
  samples : List (List ℚ)
  runningSum : List ℚ
  runningSumSq : List ℚ
  outputDimension : ℕ
  deriving DecidableEq, Repr

/-- A freshly constructed feature: empty buffer, empty accumulators. -/
def initialVarianceState : VarianceState := ⟨[], [], [], 0⟩

/-- Modelled from the spec: `BufferedFeature::GetDelayedSamples(k)` returns
the input sample from `k` steps ago (`k = 0` is the most recently pushed
sample); when history is incomplete the result is empty and the caller's
`resize` zero-pads it.  (`BufferedFeature` is not among the provided
sources.) -/
def getDelayedSamples (samples : List (List ℚ)) (k : ℕ) : List ℚ :=
  samples.getD k []

/-- Modelled from the spec: `BufferedFeature::UpdateRowSamples` pushes a new
sample into the window, evicting the oldest if at capacity `windowSize`.
(`BufferedFeature` is not among the provided sources.) -/
def updateRowSamples (windowSize : ℕ) (samples : List (List ℚ)) (v : List ℚ) :
    List (List ℚ) :=
  (v :: samples).take windowSize

/-- `IncrementalVarianceFeature::ComputeOutput`, translated line by line from
`IncrementalVarianceFeature.cpp` (lines 45-79).  `inputData` is the input
feature's current output; the call either throws (zero-dimensional input) or
returns the result vector together with the updated object state. -/
def computeOutput (windowSize : ℕ) (s : VarianceState) (inputData : List ℚ) :
    Except EmllException (List ℚ × VarianceState) :=
  let inputDimension := inputData.length
  if inputDimension = 0 then
    .error ⟨.invalidArgument, "Invalid input of size zero"⟩
  else
    -- get the oldest sample (before the buffer is rotated)
    let oldData := resizeZero (getDelayedSamples s.samples (windowSize - 1)) inputDimension
    let runningSum0 := resizeZero s.runningSum inputDimension
    let runningSumSq0 := resizeZero s.runningSumSq inputDimension
    let samples' := updateRowSamples windowSize s.samples inputData
    -- update the running sum and output
    let runningSum' := (List.range inputDimension).map fun index =>
      runningSum0.getD index 0 + (inputData.getD index 0 - oldData.getD index 0)
    let runningSumSq' := (List.range inputDimension).map fun index =>
      runningSumSq0.getD index 0 +
        (inputData.getD index 0 * inputData.getD index 0 -
          oldData.getD index 0 * oldData.getD index 0)
    let result := (List.range inputDimension).map fun index =>
      (runningSumSq'.getD index 0 -
          runningSum'.getD index 0 * runningSum'.getD index 0 / (windowSize : ℚ)) /
        (windowSize : ℚ)
    .ok (result, ⟨samples', runningSum', runningSumSq', inputDimension⟩)

/-- Advance the interpreted evaluator over a whole sample sequence, collecting
the per-tick outputs; an exception at any tick propagates. -/
def runVariance (windowSize : ℕ) :
    VarianceState → List (List ℚ) → Except EmllException (List (List ℚ))
  | _, [] => .ok []
  | s, v :: vs =>
    match computeOutput windowSize s v with
    | .error e => .error e
    | .ok (r, s') =>
      match runVariance windowSize s' vs with
      | .error e => .error e
      | .ok rs => .ok (r :: rs)

/-!
## Deserialization: `IncrementalVarianceFeature::Create`
-/

/-- A `Feature*` value (an opaque non-null pointer is modelled as a handle). -/
structure FeaturePtr where
  handle : ℕ
  deriving DecidableEq, Repr

/-- `Feature::FeatureMap` (`std::unordered_map<std::string, Feature*>`),
modelled as an association list; a `none` value is a null `Feature*`. -/
abbrev FeatureMap := List (String × Option FeaturePtr)

/-- `std::unordered_map::operator[]`: return the value stored under `k`,
default-inserting a null (`none`) entry first when `k` is absent.  Returns the
value and the possibly-extended map. -/
def mapIndex (m : FeatureMap) (k : String) : Option FeaturePtr × FeatureMap :=
  match m.lookup k with
  | some v => (v, m)
  | none => (none, m ++ [(k, none)])

/-- Modelled from the spec: `StringUtil`'s `ParseInt` parses an unsigned
integer; malformed numeric text is a fatal deserialization error.
(`StringUtil` is not among the provided sources.) -/
def ParseInt (s : String) : Except EmllException ℕ :=
  if s.data ≠ [] ∧ s.data.all Char.isDigit then
    .ok (s.data.foldl (fun n c => 10 * n + (c.toNat - 48)) 0)
  else .error ⟨.badStringFormat, "Error parsing integer"⟩

/-- The feature object built by a successful
`IncrementalVarianceFeature::Create` call. -/
structure VarianceFeatureDesc where
  id : String
  inputFeature : FeaturePtr
  windowSize : ℕ
  deriving DecidableEq, Repr

/-- `IncrementalVarianceFeature::Create` (lines 122-134), with the
`FeatureMap` mutation by `operator[]` made explicit: the result of the call
together with the (possibly mutated) registry. -/
def Create (params : List String) (previousFeatures : FeatureMap) :
    Except EmllException VarianceFeatureDesc × FeatureMap :=
  let featureId := params.getD 0 ""
  let (inputFeature, previousFeatures') := mapIndex previousFeatures (params.getD 2 "")
  match ParseInt (params.getD 3 "") with
  | .error e => (.error e, previousFeatures')
  | .ok windowSize =>
    match inputFeature with
    | none =>
      (.error ⟨.badStringFormat,
        "Error deserializing feature description: unknown input feature " ++ params.getD 2 ""⟩,
        previousFeatures')
    | some ptr => (.ok ⟨featureId, ptr, windowSize⟩, previousFeatures')

/-!
## The Layer graph: `IncrementalVarianceFeature::AddToModel`

The primitive layers and `Model::EmplaceLayer` are repository components not
among the provided sources; they are modelled from the spec (§3, §4.4): a
Model is an append-only list of Layers in creation order, `EmplaceLayer`
appends a Layer and returns its output CoordinateList, and the four primitive
layers are constant, shift register, accumulator and elementwise binary
operation.  Layer index `0` is reserved for the external input signal that
the lowered feature's `inputCoordinates` refer to.
-/

/-- A reference to one output slot of one Layer (`layers::Coordinate`).
Layer index `0` denotes the external input signal. -/
structure Coordinate where
  layerIndex : ℕ
  elementIndex : ℕ
  deriving DecidableEq, Repr

/-- `layers::CoordinateList`. -/
abbrev CoordinateList := List Coordinate

/-- The contiguous coordinate list `[(L, s), (L, s+1), …]` of width `w`. -/
def coordinateRange (layerIndex start : ℕ) : ℕ → CoordinateList
  | 0 => []
  | w + 1 => ⟨layerIndex, start⟩ :: coordinateRange layerIndex (start + 1) w

/-- Elementwise binary operations
(`layers::BinaryOperationLayer::OperationType`). -/
inductive OperationType where
  | add
  | subtract
  | multiply
  | divide
  deriving DecidableEq, Repr

/-- Modelled from the spec (§4.4): the fixed primitive instruction set —
constant, delay line (shift register) of a given depth, stateful accumulator,
elementwise binary operation.  Each layer stores the coordinate lists of its
inputs. -/
inductive Layer where
  | constant (values : List ℚ)
  | shiftRegister (input : CoordinateList) (depth : ℕ)
  | binaryOperation (input1 input2 : CoordinateList) (op : OperationType)
  | accumulator (input : CoordinateList)
  deriving DecidableEq, Repr

/-- The output width of each layer.  A shift register of depth `k` over a
width-`w` signal exposes all `k` delayed samples, hence width `k * w`. -/
def Layer.outputWidth : Layer → ℕ
  | .constant values => values.length
  | .shiftRegister input depth => depth * input.length
  | .binaryOperation input1 _ _ => input1.length
  | .accumulator input => input.length

/-- Modelled from the spec (§3): a Model owns its Layers in creation order. -/
structure Model where
  layers : List Layer
  deriving DecidableEq, Repr

/-- A Model holding no layers yet. -/
def emptyModel : Model := ⟨[]⟩

/-- Modelled from the spec (§4.3): `Model::EmplaceLayer` appends a new Layer
and returns its output CoordinateList.  Freshly created layer `n` (0-based in
`layers`) has layer index `n + 1`, since index `0` is the external input. -/
def emplaceLayer (m : Model) (l : Layer) : CoordinateList × Model :=
  (coordinateRange (m.layers.length + 1) 0 l.outputWidth, ⟨m.layers ++ [l]⟩)

/-- Modelled from the spec (§4.4): `ShiftRegisterLayer::GetDelayedOutputCoordinates`
selects, out of the layer's full output (`bufferOutput`), the width-`w` slice
holding the sample delayed by `k` steps. -/
def Layer.getDelayedOutputCoordinates :
    Layer → CoordinateList → ℕ → CoordinateList
  | .shiftRegister input _, bufferOutput, k =>
    (bufferOutput.drop (k * input.length)).take input.length
  | _, _, _ => []

/-- Modelled from `CoordinateListTools`' usage in the source:
`RepeatCoordinates(c, n)` repeats the coordinate list `n` times, broadcasting
a width-1 signal to width `n`. -/
def repeatCoordinates (c : CoordinateList) (n : ℕ) : CoordinateList :=
  (List.replicate n c).flatten

/-- Features are identified by their stable string id. -/
abbrev FeatureId := String

/-- `IncrementalVarianceFeature::AddToModel` (lines 81-120), translated
emplacement by emplacement.  `featureOutputs` is the map from already-lowered
features to their coordinate lists and `inputFeature` stands for
`_inputFeatures[0]`.  A thrown exception leaves the model as it was, so the
result is the pair of an `Except` outcome and the model. -/
def addToModel (windowSize : ℕ) (inputFeature : FeatureId) (model : Model)
    (featureOutputs : List (FeatureId × CoordinateList)) :
    Except EmllException CoordinateList × Model :=
  match featureOutputs.lookup inputFeature with
  | none => (.error ⟨.illegalState, "Couldn't find input feature"⟩, model)
  | some inputCoordinates =>
    let inputDimension := inputCoordinates.length
    -- a layer holding the constant windowSize, broadcast to the input width
    let (divisor, m1) := emplaceLayer model (.constant [(windowSize : ℚ)])
    let divisorVector := repeatCoordinates divisor inputDimension
    -- a buffer that will hold windowSize samples
    let (bufferOutput, m2) :=
      emplaceLayer m1 (.shiftRegister inputCoordinates (windowSize + 1))
    let shiftRegisterLayer := Layer.shiftRegister inputCoordinates (windowSize + 1)
    -- running sum: subtract the oldest value and add the newest
    let oldestSample :=
      shiftRegisterLayer.getDelayedOutputCoordinates bufferOutput windowSize
    let (diff, m3) :=
      emplaceLayer m2 (.binaryOperation inputCoordinates oldestSample .subtract)
    let (runningSum, m4) := emplaceLayer m3 (.accumulator diff)
    -- square the sum of inputs and divide by window size
    let (squaredSum, m5) :=
      emplaceLayer m4 (.binaryOperation runningSum runningSum .multiply)
    let (normSquaredSum, m6) :=
      emplaceLayer m5 (.binaryOperation squaredSum divisorVector .divide)
    -- running sum of squared samples
    let (newValueSquared, m7) :=
      emplaceLayer m6 (.binaryOperation inputCoordinates inputCoordinates .multiply)
    let (oldValueSquared, m8) :=
      emplaceLayer m7 (.binaryOperation oldestSample oldestSample .multiply)
    let (diffSquared, m9) :=
      emplaceLayer m8 (.binaryOperation newValueSquared oldValueSquared .subtract)
    let (runningSquaredSum, m10) := emplaceLayer m9 (.accumulator diffSquared)
    -- variance = (sum(x^2) - (sum(x)^2 / N)) / N
    let (varianceTimesN, m11) :=
      emplaceLayer m10 (.binaryOperation runningSquaredSum normSquaredSum .subtract)
    let (variance, m12) :=
      emplaceLayer m11 (.binaryOperation varianceTimesN divisorVector .divide)
    (.ok variance, m12)

/-!
## Simulation of a Model

Modelled from the spec (§4.4): execution-time state (accumulator totals,
shift-register contents) lives in the runtime; a tick feeds one external
input vector, evaluates every layer in creation order, and reads any
coordinate list off the per-layer outputs.
-/

/-- Run-time state of one layer. -/
inductive LayerState where
  | stateless
  | shiftRegister (entries : List (List ℚ))
  | accumulator (totals : List ℚ)
  deriving DecidableEq, Repr

/-- Initial run-time state: empty delay line, zeroed accumulator totals. -/
def Layer.initialState : Layer → LayerState
  | .shiftRegister _ _ => .shiftRegister []
  | .accumulator input => .accumulator (List.replicate input.length 0)
  | _ => .stateless

/-- Read one coordinate off the per-layer outputs of the current tick
(`outputs.getD 0` is the external input vector). -/
def resolveCoordinate (outputs : List (List ℚ)) (c : Coordinate) : ℚ :=
  (outputs.getD c.layerIndex []).getD c.elementIndex 0

/-- Read a coordinate list off the per-layer outputs of the current tick. -/
def resolveCoordinates (outputs : List (List ℚ)) (cs : CoordinateList) : List ℚ :=
  cs.map (resolveCoordinate outputs)

/-- Semantics of an elementwise binary operation. -/
def OperationType.apply : OperationType → ℚ → ℚ → ℚ
  | .add, a, b => a + b
  | .subtract, a, b => a - b
  | .multiply, a, b => a * b
  | .divide, a, b => a / b

/-- One tick of one layer: given its state and the outputs of all earlier
layers, produce this layer's output vector and next state.  The shift
register pushes the live input and exposes all `depth` delayed samples,
zero-filled to the signal width while history is incomplete. -/
def Layer.step (l : Layer) (st : LayerState) (outputs : List (List ℚ)) :
    List ℚ × LayerState :=
  match l with
  | .constant values => (values, st)
  | .shiftRegister input depth =>
    match st with
    | .shiftRegister entries =>
      let v := resolveCoordinates outputs input
      let entries' := (v :: entries).take depth
      (((List.range depth).map fun k =>
          resizeZero (entries'.getD k []) input.length).flatten,
        .shiftRegister entries')
    | _ => ([], st)
  | .binaryOperation input1 input2 op =>
    (List.zipWith op.apply (resolveCoordinates outputs input1)
      (resolveCoordinates outputs input2), st)
  | .accumulator input =>
    match st with
    | .accumulator totals =>
      let totals' := List.zipWith (· + ·) totals (resolveCoordinates outputs input)
      (totals', .accumulator totals')
    | _ => ([], st)

/-- One tick of a list of layers paired with their states: evaluate in
creation order, extending the outputs environment as we go. -/
def stepLayers :
    List (Layer × LayerState) → List (List ℚ) → List (List ℚ) × List LayerState
  | [], outputs => (outputs, [])
  | (l, st) :: rest, outputs =>
    let (out, st') := l.step st outputs
    let (outputsAll, states') := stepLayers rest (outputs ++ [out])
    (outputsAll, st' :: states')

/-- Per-layer initial run-time states of a whole model. -/
def Model.initialState (m : Model) : List LayerState :=
  m.layers.map Layer.initialState

/-- Simulate a model over a sample sequence: each tick feeds one external
input vector, steps every layer in creation order, and reads the designated
output coordinate list; returns the per-tick readings. -/
def Model.run (m : Model) (outputCoords : CoordinateList) :
    List LayerState → List (List ℚ) → List (List ℚ)
  | _, [] => []
  | states, v :: vs =>
    let (outputs, states') := stepLayers (m.layers.zip states) [v]
    resolveCoordinates outputs outputCoords :: m.run outputCoords states' vs

/-!
## The optimization pipeline: `IROptimizer` (src/unnamed/part_000)

`AddStandardPasses` registers an LLVM verifier pass followed by the
`PassManagerBuilder`-populated passes.  The LLVM pass managers themselves are
external; they are modelled from the spec (§4.5): pass managers run their
passes in registration order, the function-level sequence is inlining plus
loop and SLP vectorization parameterized by the optimization level, and the
module-level sequence follows the function-level one.
-/

/-- The stage a pass belongs to, as classified by the spec (§4.5). -/
inductive PassKind where
  | verification
  | functionOpt
  | moduleOpt
  deriving DecidableEq, Repr

/-- The passes registered by `AddStandardPasses`.  The optimization passes
carry their configuration; their transformation semantics stay abstract. -/
inductive Pass where
  | verifier
  | functionInlining (optLevel sizeLevel : ℕ)
  | loopVectorize
  | slpVectorize
  | moduleLevelOpt (optLevel : ℕ)
  deriving DecidableEq, Repr

/-- Classification of each registered pass. -/
def Pass.kind : Pass → PassKind
  | .verifier => .verification
  | .functionInlining _ _ => .functionOpt
  | .loopVectorize => .functionOpt
  | .slpVectorize => .functionOpt
  | .moduleLevelOpt _ => .moduleOpt

/-- `llvm::PassManagerBuilder`, restricted to the fields the source sets. -/
structure PassManagerBuilder where
  optLevel : ℕ
  sizeLevel : ℕ
  inliner : Option Pass
  loopVectorize : Bool
  slpVectorize : Bool

/-- Modelled from the spec (§4.5): `populateFunctionPassManager` appends the
function-level optimization sequence — inlining, loop and data-parallel
vectorization — as configured on the builder. -/
def populateFunctionPassManager (b : PassManagerBuilder) : List Pass :=
  b.inliner.toList ++
    (if b.loopVectorize then [Pass.loopVectorize] else []) ++
    (if b.slpVectorize then [Pass.slpVectorize] else [])

/-- Modelled from the spec (§4.5): `populateModulePassManager` appends the
module-level optimization sequence for the configured optimization level. -/
def populateModulePassManager (b : PassManagerBuilder) : List Pass :=
  [Pass.moduleLevelOpt b.optLevel]

/-- The two pass managers owned by an `IROptimizer`. -/
structure IROptimizerState where
  functionPasses : List Pass
  modulePasses : List Pass
  deriving DecidableEq, Repr

/-- A freshly constructed `IROptimizer`: both pass managers empty. -/
def initialOptimizer : IROptimizerState := ⟨[], []⟩

/-- `IROptimizer::AddStandardPasses` (src/unnamed/part_000, lines 38-58):
register the verifier pass on the function pass manager first, then let a
`PassManagerBuilder` with OptLevel 3, SizeLevel 0, the inlining pass, and
both vectorizers enabled populate the function and module pass managers. -/
def addStandardPasses (st : IROptimizerState) : IROptimizerState :=
  let functionPasses1 := st.functionPasses ++ [Pass.verifier]
  let builder : PassManagerBuilder :=
    { optLevel := 3
      sizeLevel := 0
      inliner := some (.functionInlining 3 0)
      loopVectorize := true
      slpVectorize := true }
  { st with
    functionPasses := functionPasses1 ++ populateFunctionPassManager builder
    modulePasses := st.modulePasses ++ populateModulePassManager builder }

/-- An LLVM module, abstracted to the one property the verifier checks. -/
structure LLVMModule where
  wellFormed : Bool
  deriving DecidableEq, Repr

/-- Modelled from the spec (§4.5): a pass manager runs its passes in
registration order; the verifier fails fast on a malformed module, aborting
the pipeline; every other pass transforms the module by an arbitrary
(parameter) semantics `apply`. -/
def runPasses (apply : Pass → LLVMModule → LLVMModule) :
    List Pass → LLVMModule → Except EmllException LLVMModule
  | [], m => .ok m
  | .verifier :: rest, m =>
    if m.wellFormed then runPasses apply rest m
    else .error ⟨.illegalState, "Verification failed"⟩
  | p :: rest, m => runPasses apply rest (apply p m)

/-!
## The lowered variance graph, written out

`addToModel` on an empty model produces exactly these twelve layers (proved
below); naming them makes the simulation proofs tractable.
-/

/-- The twelve layers `IncrementalVarianceFeature::AddToModel` emplaces, for
input width `d` (input coordinates refer to the external input, layer 0). -/
def loweredLayers (W d : ℕ) : List Layer :=
  [ .constant [(W : ℚ)],
    .shiftRegister (coordinateRange 0 0 d) (W + 1),
    .binaryOperation (coordinateRange 0 0 d) (coordinateRange 2 (W * d) d) .subtract,
    .accumulator (coordinateRange 3 0 d),
    .binaryOperation (coordinateRange 4 0 d) (coordinateRange 4 0 d) .multiply,
    .binaryOperation (coordinateRange 5 0 d) (List.replicate d ⟨1, 0⟩) .divide,
    .binaryOperation (coordinateRange 0 0 d) (coordinateRange 0 0 d) .multiply,
    .binaryOperation (coordinateRange 2 (W * d) d) (coordinateRange 2 (W * d) d) .multiply,
    .binaryOperation (coordinateRange 7 0 d) (coordinateRange 8 0 d) .subtract,
    .accumulator (coordinateRange 9 0 d),
    .binaryOperation (coordinateRange 10 0 d) (coordinateRange 6 0 d) .subtract,
    .binaryOperation (coordinateRange 11 0 d) (List.replicate d ⟨1, 0⟩) .divide ]

/-- The run-time states of the lowered graph: the shift register's entries
and the two accumulators' totals; everything else is stateless. -/
def loweredStates (entries : List (List ℚ)) (S Q : List ℚ) : List LayerState :=
  [ .stateless, .shiftRegister entries, .stateless, .accumulator S,
    .stateless, .stateless, .stateless, .stateless, .stateless, .accumulator Q,
    .stateless, .stateless ]

/-- The per-dimension value both execution strategies produce on one tick,
as a function of the accumulator totals `S`, `Q`, the live sample `x` and the
leaving sample `old`. -/
def tickFormula (W d : ℕ) (S Q x old : List ℚ) : List ℚ :=
  (List.range d).map fun j =>
    (Q.getD j 0 + (x.getD j 0 * x.getD j 0 - old.getD j 0 * old.getD j 0) -
        (S.getD j 0 + (x.getD j 0 - old.getD j 0)) *
          (S.getD j 0 + (x.getD j 0 - old.getD j 0)) / (W : ℚ)) /
      (W : ℚ)

/-- The updated linear accumulator totals after one tick. -/
def tickSum (d : ℕ) (S x old : List ℚ) : List ℚ :=
  (List.range d).map fun j => S.getD j 0 + (x.getD j 0 - old.getD j 0)

/-- The updated squared accumulator totals after one tick. -/
def tickSumSq (d : ℕ) (Q x old : List ℚ) : List ℚ :=
  (List.range d).map fun j =>
    Q.getD j 0 + (x.getD j 0 * x.getD j 0 - old.getD j 0 * old.getD j 0)


/-- The sample leaving the window on the current tick, as the lowered graph
reads it: the delay-`W` slot of the shift register after the push. -/
def loweredOld (W d : ℕ) (x : List ℚ) (entries : List (List ℚ)) : List ℚ :=
  resizeZero ((updateRowSamples (W + 1) entries x).getD W []) d

/-- The shift register layer's full output: all `W + 1` delayed samples,
zero-filled to the signal width `d`. -/
def shiftOut (W d : ℕ) (entries' : List (List ℚ)) : List ℚ :=
  ((List.range (W + 1)).map fun k => resizeZero (entries'.getD k []) d).flatten

/-- Dimension-`j` sum of a window of samples. -/
def sumAt (l : List (List ℚ)) (j : ℕ) : ℚ :=
  (l.map fun v => v.getD j 0).sum

/-- Dimension-`j` sum of squares of a window of samples. -/
def sumSqAt (l : List (List ℚ)) (j : ℕ) : ℚ :=
  (l.map fun v => v.getD j 0 * v.getD j 0).sum

/-- The spec's reference value: the population variance
`(sumSq − sum² / windowSize) / windowSize` recomputed directly from an
explicit window of samples. -/
def directVariance (W : ℕ) (window : List (List ℚ)) (j : ℕ) : ℚ :=
  (sumSqAt window j - sumAt window j * sumAt window j / (W : ℚ)) / (W : ℚ)

/-!
## List helper lemmas
-/

@[simp] lemma resizeZero_length (l : List ℚ) (n : ℕ) : (resizeZero l n).length = n := by
  simp [resizeZero]
  omega

lemma resizeZero_of_length {l : List ℚ} {n : ℕ} (h : l.length = n) : resizeZero l n = l := by
  simp [resizeZero, h, List.take_of_length_le (le_of_eq h)]

lemma getD_zero_of_le {l : List ℚ} {i : ℕ} (h : l.length ≤ i) : l.getD i 0 = 0 := by
  simp [List.getD, List.getElem?_eq_none h]

lemma resizeZero_getD {l : List ℚ} {n i : ℕ} (hi : i < n) :
    (resizeZero l n).getD i 0 = l.getD i 0 := by
  rcases lt_or_le i l.length with hl | hl
  · rw [resizeZero, List.getD_append _ _ _ _ (by simp; omega),
      List.getD_eq_getElem _ _ (by simp; omega), List.getElem_take,
      List.getD_eq_getElem _ _ hl]
  · rw [getD_zero_of_le hl]
    rcases lt_or_le i (resizeZero l n).length with h2 | h2
    · rw [resizeZero, List.getD_append_right _ _ _ _ (by simp; omega),
        List.getD_eq_getElem _ _ (by simp at h2 ⊢; omega), List.getElem_replicate]
    · exact getD_zero_of_le h2

lemma ext_getD {a b : List ℚ} (hl : a.length = b.length)
    (h : ∀ i < a.length, a.getD i 0 = b.getD i 0) : a = b := by
  apply List.ext_getElem hl
  intro i h1 h2
  have := h i h1
  rwa [List.getD_eq_getElem _ _ h1, List.getD_eq_getElem _ _ h2] at this

lemma getD_zipWith {f : ℚ → ℚ → ℚ} {a b : List ℚ} {i : ℕ}
    (ha : i < a.length) (hb : i < b.length) :
    (List.zipWith f a b).getD i 0 = f (a.getD i 0) (b.getD i 0) := by
  rw [List.getD_eq_getElem _ _ (by simp; omega), List.getElem_zipWith,
    List.getD_eq_getElem _ _ ha, List.getD_eq_getElem _ _ hb]

lemma getD_map_range {α : Type} {f : ℕ → α} {dflt : α} {n i : ℕ} (h : i < n) :
    ((List.range n).map f).getD i dflt = f i := by
  simp [List.getD, List.getElem?_range, h]

lemma map_range_getD_self {l : List ℚ} {n : ℕ} (h : l.length = n) :
    (List.range n).map (fun j => l.getD j 0) = l := by
  apply ext_getD (by simp [h])
  intro i hi
  simp only [List.length_map, List.length_range] at hi
  rw [getD_map_range hi]

lemma getD_replicate {c : ℚ} {n i : ℕ} (h : i < n) :
    (List.replicate n c).getD i 0 = c := by
  rw [List.getD_eq_getElem _ _ (by simpa using h), List.getElem_replicate]

lemma getD_take {l : List ℚ} {n k : ℕ} (h : k < n) (d : ℚ) :
    (l.take n).getD k d = l.getD k d := by
  simp [List.getD, List.getElem?_take, h]

lemma getD_take' {l : List (List ℚ)} {n k : ℕ} (h : k < n) :
    (l.take n).getD k [] = l.getD k [] := by
  simp [List.getD, List.getElem?_take, h]

lemma map_range_ext {f g : ℕ → ℚ} {n : ℕ} (h : ∀ i < n, f i = g i) :
    (List.range n).map f = (List.range n).map g := by
  apply List.map_congr_left
  intro i hi
  exact h i (List.mem_range.mp hi)

@[simp] lemma coordinateRange_length (L s w : ℕ) : (coordinateRange L s w).length = w := by
  induction w generalizing s with
  | zero => rfl
  | succ w ih => simp [coordinateRange, ih]

lemma coordinateRange_drop (L s w k : ℕ) :
    (coordinateRange L s w).drop k = coordinateRange L (s + k) (w - k) := by
  induction k generalizing s w with
  | zero => simp
  | succ k ih =>
    cases w with
    | zero => simp [coordinateRange]
    | succ w =>
      show (coordinateRange L (s + 1) w).drop k = _
      rw [ih]
      congr 1 <;> omega

lemma coordinateRange_take (L s w k : ℕ) :
    (coordinateRange L s w).take k = coordinateRange L s (min k w) := by
  induction k generalizing s w with
  | zero => simp [coordinateRange]
  | succ k ih =>
    cases w with
    | zero => simp [coordinateRange]
    | succ w =>
      show Coordinate.mk L s :: (coordinateRange L (s + 1) w).take k = _
      rw [ih, Nat.succ_min_succ]
      rfl

lemma resolve_coordinateRange (outs : List (List ℚ)) (L s w : ℕ) :
    resolveCoordinates outs (coordinateRange L s w) =
      (List.range w).map fun j => (outs.getD L []).getD (s + j) 0 := by
  induction w generalizing s with
  | zero => rfl
  | succ w ih =>
    have h1 : resolveCoordinates outs (coordinateRange L s (w + 1)) =
        resolveCoordinate outs ⟨L, s⟩ ::
          resolveCoordinates outs (coordinateRange L (s + 1) w) := rfl
    have h2 : (List.range w).map (fun j => (outs.getD L []).getD (s + 1 + j) 0) =
        (List.range w).map
          ((fun j => (outs.getD L []).getD (s + j) 0) ∘ Nat.succ) := by
      apply List.map_congr_left
      intro j hj
      show (outs.getD L []).getD (s + 1 + j) 0 = (outs.getD L []).getD (s + (j + 1)) 0
      rw [show s + 1 + j = s + (j + 1) by omega]
    rw [h1, ih, h2, List.range_succ_eq_map, List.map_cons, List.map_map]
    simp [resolveCoordinate]

lemma resolve_coordinateRange_self {outs : List (List ℚ)} {L w : ℕ} {l : List ℚ}
    (hL : outs.getD L [] = l) (hw : l.length = w) :
    resolveCoordinates outs (coordinateRange L 0 w) = l := by
  rw [resolve_coordinateRange, hL]
  apply ext_getD (by simp [hw])
  intro i hi
  simp only [List.length_map, List.length_range] at hi
  rw [getD_map_range hi]
  simp

@[simp] lemma repeatCoordinates_single (c : Coordinate) (n : ℕ) :
    repeatCoordinates [c] n = List.replicate n c := by
  induction n with
  | zero => rfl
  | succ n ih => exact congrArg (c :: ·) ih

lemma resolve_replicate (outs : List (List ℚ)) (c : Coordinate) (n : ℕ) :
    resolveCoordinates outs (List.replicate n c) =
      List.replicate n (resolveCoordinate outs c) := by
  simp [resolveCoordinates]

lemma flatten_blocks_getD {bs : List (List ℚ)} {d k j : ℕ}
    (hd : ∀ b ∈ bs, b.length = d) (hk : k < bs.length) (hj : j < d) :
    bs.flatten.getD (k * d + j) 0 = (bs.getD k []).getD j 0 := by
  induction bs generalizing k with
  | nil => simp at hk
  | cons b bs ih =>
    have hb : b.length = d := hd b (by simp)
    cases k with
    | zero =>
      simp only [List.flatten_cons, Nat.zero_mul, Nat.zero_add, List.getD_cons_zero]
      rw [List.getD_append _ _ _ _ (by omega)]
    | succ k =>
      simp only [List.flatten_cons, List.getD_cons_succ]
      rw [List.getD_append_right _ _ _ _ (by rw [hb]; nlinarith),
        show (k + 1) * d + j - b.length = k * d + j by rw [hb]; ring_nf; omega]
      exact ih (fun x hx => hd x (by simp [hx])) (by simpa using hk)


/-!
## Equivalence of the two execution strategies
-/

-- The chain of elementwise operations from the accumulators to the variance output.
lemma variance_chain (W d : ℕ) (S Q x old : List ℚ) :
    List.zipWith (OperationType.apply .divide)
      (List.zipWith (OperationType.apply .subtract) (tickSumSq d Q x old)
        (List.zipWith (OperationType.apply .divide)
          (List.zipWith (OperationType.apply .multiply) (tickSum d S x old) (tickSum d S x old))
          (List.replicate d (W : ℚ))))
      (List.replicate d (W : ℚ)) = tickFormula W d S Q x old := by
  have l1 : (tickSum d S x old).length = d := by simp [tickSum]
  have l2 : (tickSumSq d Q x old).length = d := by simp [tickSumSq]
  apply ext_getD (by simp [tickFormula, l1, l2])
  intro i hi
  simp only [List.length_zipWith, List.length_replicate, l1, l2, List.length_map,
    List.length_range, min_self, Nat.min_self] at hi
  rw [getD_zipWith (by simp [l1, l2]; omega) (by simp; omega),
    getD_zipWith (by simp [l2]; omega) (by simp [l1]; omega),
    getD_zipWith (by simp [l1]; omega) (by simp; omega),
    getD_zipWith (by simp [l1]; omega) (by simp [l1]; omega)]
  simp only [tickSum, tickSumSq, tickFormula, getD_map_range hi, OperationType.apply, getD_replicate hi]

lemma acc_sum_chain (d : ℕ) (S x old : List ℚ) (hS : S.length = d) (hx : x.length = d)
    (hold : old.length = d) :
    List.zipWith (· + ·) S (List.zipWith (OperationType.apply .subtract) x old) =
      tickSum d S x old := by
  apply ext_getD (by simp [tickSum, hS, hx, hold])
  intro i hi
  simp only [List.length_zipWith, hS, hx, hold, min_self] at hi
  rw [getD_zipWith (by omega) (by simp [hx, hold]; omega), getD_zipWith (by omega) (by omega)]
  simp only [tickSum, getD_map_range hi, OperationType.apply]

lemma acc_sumsq_chain (d : ℕ) (Q x old : List ℚ) (hQ : Q.length = d) (hx : x.length = d)
    (hold : old.length = d) :
    List.zipWith (· + ·) Q
      (List.zipWith (OperationType.apply .subtract)
        (List.zipWith (OperationType.apply .multiply) x x)
        (List.zipWith (OperationType.apply .multiply) old old)) =
      tickSumSq d Q x old := by
  apply ext_getD (by simp [tickSumSq, hQ, hx, hold])
  intro i hi
  simp only [List.length_zipWith, hQ, hx, hold, min_self] at hi
  rw [getD_zipWith (by omega) (by simp [hx, hold]; omega),
    getD_zipWith (by simp [hx]; omega) (by simp [hold]; omega),
    getD_zipWith (by omega) (by omega), getD_zipWith (by omega) (by omega)]
  simp only [tickSumSq, getD_map_range hi, OperationType.apply]

lemma resolve_delayed {env : List (List ℚ)} {W d : ℕ} {entries' : List (List ℚ)}
    (henv : env.getD 2 [] = shiftOut W d entries') :
    resolveCoordinates env (coordinateRange 2 (W * d) d) =
      resizeZero (entries'.getD W []) d := by
  rw [resolve_coordinateRange, henv]
  have hb : ∀ b ∈ (List.range (W + 1)).map (fun k => resizeZero (entries'.getD k []) d),
      b.length = d := by
    intro b hbmem
    simp only [List.mem_map, List.mem_range] at hbmem
    obtain ⟨k, _, rfl⟩ := hbmem
    simp
  apply ext_getD (by simp)
  intro i hi
  simp only [List.length_map, List.length_range] at hi
  rw [getD_map_range hi, shiftOut, flatten_blocks_getD hb (by simp) hi,
    getD_map_range (by omega)]

lemma stepLayers_lowered (W d : ℕ) (x : List ℚ) (entries : List (List ℚ)) (S Q : List ℚ)
    (hx : x.length = d) (hS : S.length = d) (hQ : Q.length = d) :
    stepLayers ((loweredLayers W d).zip (loweredStates entries S Q)) [x] =
      ([x,
      [(W : ℚ)],
      shiftOut W d (updateRowSamples (W + 1) entries x),
      List.zipWith (OperationType.apply .subtract) x (loweredOld W d x entries),
      tickSum d S x (loweredOld W d x entries),
      List.zipWith (OperationType.apply .multiply) (tickSum d S x (loweredOld W d x entries)) (tickSum d S x (loweredOld W d x entries)),
      List.zipWith (OperationType.apply .divide) (List.zipWith (OperationType.apply .multiply) (tickSum d S x (loweredOld W d x entries)) (tickSum d S x (loweredOld W d x entries))) (List.replicate d (W : ℚ)),
      List.zipWith (OperationType.apply .multiply) x x,
      List.zipWith (OperationType.apply .multiply) (loweredOld W d x entries) (loweredOld W d x entries),
      List.zipWith (OperationType.apply .subtract) (List.zipWith (OperationType.apply .multiply) x x) (List.zipWith (OperationType.apply .multiply) (loweredOld W d x entries) (loweredOld W d x entries)),
      tickSumSq d Q x (loweredOld W d x entries),
      List.zipWith (OperationType.apply .subtract) (tickSumSq d Q x (loweredOld W d x entries)) (List.zipWith (OperationType.apply .divide) (List.zipWith (OperationType.apply .multiply) (tickSum d S x (loweredOld W d x entries)) (tickSum d S x (loweredOld W d x entries))) (List.replicate d (W : ℚ))),
      List.zipWith (OperationType.apply .divide) (List.zipWith (OperationType.apply .subtract) (tickSumSq d Q x (loweredOld W d x entries)) (List.zipWith (OperationType.apply .divide) (List.zipWith (OperationType.apply .multiply) (tickSum d S x (loweredOld W d x entries)) (tickSum d S x (loweredOld W d x entries))) (List.replicate d (W : ℚ)))) (List.replicate d (W : ℚ))],
        loweredStates (updateRowSamples (W + 1) entries x)
          (tickSum d S x (loweredOld W d x entries)) (tickSumSq d Q x (loweredOld W d x entries))) := by
  have key1 : Layer.step (.constant [(W : ℚ)]) (.stateless)
      ([x]) = ([(W : ℚ)], (.stateless)) := rfl
  have key2 : Layer.step (.shiftRegister (coordinateRange 0 0 d) (W + 1)) (.shiftRegister entries)
      ([x,
      [(W : ℚ)]]) = (shiftOut W d (updateRowSamples (W + 1) entries x), (.shiftRegister (updateRowSamples (W + 1) entries x))) := by
    simp only [Layer.step]
    rw [@resolve_coordinateRange_self ([x,
      [(W : ℚ)]]) 0 d x rfl hx]
    simp only [shiftOut, updateRowSamples, coordinateRange_length]
  have key3 : Layer.step (.binaryOperation (coordinateRange 0 0 d) (coordinateRange 2 (W * d) d) .subtract) (.stateless)
      ([x,
      [(W : ℚ)],
      shiftOut W d (updateRowSamples (W + 1) entries x)]) = (List.zipWith (OperationType.apply .subtract) x (loweredOld W d x entries), (.stateless)) := by
    simp only [Layer.step]
    rw [@resolve_coordinateRange_self ([x,
      [(W : ℚ)],
      shiftOut W d (updateRowSamples (W + 1) entries x)]) 0 d x rfl hx,
      @resolve_delayed ([x,
      [(W : ℚ)],
      shiftOut W d (updateRowSamples (W + 1) entries x)]) W d (updateRowSamples (W + 1) entries x) rfl]
    simp only [loweredOld]
  have key4 : Layer.step (.accumulator (coordinateRange 3 0 d)) (.accumulator S)
      ([x,
      [(W : ℚ)],
      shiftOut W d (updateRowSamples (W + 1) entries x),
      List.zipWith (OperationType.apply .subtract) x (loweredOld W d x entries)]) = (tickSum d S x (loweredOld W d x entries), (.accumulator (tickSum d S x (loweredOld W d x entries)))) := by
    simp only [Layer.step]
    rw [@resolve_coordinateRange_self ([x,
      [(W : ℚ)],
      shiftOut W d (updateRowSamples (W + 1) entries x),
      List.zipWith (OperationType.apply .subtract) x (loweredOld W d x entries)]) 3 d
        (List.zipWith (OperationType.apply .subtract) x (loweredOld W d x entries)) rfl (by simp [hx, loweredOld]),
      acc_sum_chain d S x (loweredOld W d x entries) hS hx (by simp [loweredOld])]
  have key5 : Layer.step (.binaryOperation (coordinateRange 4 0 d) (coordinateRange 4 0 d) .multiply) (.stateless)
      ([x,
      [(W : ℚ)],
      shiftOut W d (updateRowSamples (W + 1) entries x),
      List.zipWith (OperationType.apply .subtract) x (loweredOld W d x entries),
      tickSum d S x (loweredOld W d x entries)]) = (List.zipWith (OperationType.apply .multiply) (tickSum d S x (loweredOld W d x entries)) (tickSum d S x (loweredOld W d x entries)), (.stateless)) := by
    simp only [Layer.step]
    rw [@resolve_coordinateRange_self ([x,
      [(W : ℚ)],
      shiftOut W d (updateRowSamples (W + 1) entries x),
      List.zipWith (OperationType.apply .subtract) x (loweredOld W d x entries),
      tickSum d S x (loweredOld W d x entries)]) 4 d (tickSum d S x (loweredOld W d x entries)) rfl (by simp [tickSum])]
  have key6 : Layer.step (.binaryOperation (coordinateRange 5 0 d) (List.replicate d ⟨1, 0⟩) .divide) (.stateless)
      ([x,
      [(W : ℚ)],
      shiftOut W d (updateRowSamples (W + 1) entries x),
      List.zipWith (OperationType.apply .subtract) x (loweredOld W d x entries),
      tickSum d S x (loweredOld W d x entries),
      List.zipWith (OperationType.apply .multiply) (tickSum d S x (loweredOld W d x entries)) (tickSum d S x (loweredOld W d x entries))]) = (List.zipWith (OperationType.apply .divide) (List.zipWith (OperationType.apply .multiply) (tickSum d S x (loweredOld W d x entries)) (tickSum d S x (loweredOld W d x entries))) (List.replicate d (W : ℚ)), (.stateless)) := by
    simp only [Layer.step]
    rw [@resolve_coordinateRange_self ([x,
      [(W : ℚ)],
      shiftOut W d (updateRowSamples (W + 1) entries x),
      List.zipWith (OperationType.apply .subtract) x (loweredOld W d x entries),
      tickSum d S x (loweredOld W d x entries),
      List.zipWith (OperationType.apply .multiply) (tickSum d S x (loweredOld W d x entries)) (tickSum d S x (loweredOld W d x entries))]) 5 d
        (List.zipWith (OperationType.apply .multiply) (tickSum d S x (loweredOld W d x entries)) (tickSum d S x (loweredOld W d x entries))) rfl (by simp [tickSum]),
      resolve_replicate ([x,
      [(W : ℚ)],
      shiftOut W d (updateRowSamples (W + 1) entries x),
      List.zipWith (OperationType.apply .subtract) x (loweredOld W d x entries),
      tickSum d S x (loweredOld W d x entries),
      List.zipWith (OperationType.apply .multiply) (tickSum d S x (loweredOld W d x entries)) (tickSum d S x (loweredOld W d x entries))]) ⟨1, 0⟩ d]
    rfl
  have key7 : Layer.step (.binaryOperation (coordinateRange 0 0 d) (coordinateRange 0 0 d) .multiply) (.stateless)
      ([x,
      [(W : ℚ)],
      shiftOut W d (updateRowSamples (W + 1) entries x),
      List.zipWith (OperationType.apply .subtract) x (loweredOld W d x entries),
      tickSum d S x (loweredOld W d x entries),
      List.zipWith (OperationType.apply .multiply) (tickSum d S x (loweredOld W d x entries)) (tickSum d S x (loweredOld W d x entries)),
      List.zipWith (OperationType.apply .divide) (List.zipWith (OperationType.apply .multiply) (tickSum d S x (loweredOld W d x entries)) (tickSum d S x (loweredOld W d x entries))) (List.replicate d (W : ℚ))]) = (List.zipWith (OperationType.apply .multiply) x x, (.stateless)) := by
    simp only [Layer.step]
    rw [@resolve_coordinateRange_self ([x,
      [(W : ℚ)],
      shiftOut W d (updateRowSamples (W + 1) entries x),
      List.zipWith (OperationType.apply .subtract) x (loweredOld W d x entries),
      tickSum d S x (loweredOld W d x entries),
      List.zipWith (OperationType.apply .multiply) (tickSum d S x (loweredOld W d x entries)) (tickSum d S x (loweredOld W d x entries)),
      List.zipWith (OperationType.apply .divide) (List.zipWith (OperationType.apply .multiply) (tickSum d S x (loweredOld W d x entries)) (tickSum d S x (loweredOld W d x entries))) (List.replicate d (W : ℚ))]) 0 d x rfl hx]
  have key8 : Layer.step (.binaryOperation (coordinateRange 2 (W * d) d) (coordinateRange 2 (W * d) d) .multiply) (.stateless)
      ([x,
      [(W : ℚ)],
      shiftOut W d (updateRowSamples (W + 1) entries x),
      List.zipWith (OperationType.apply .subtract) x (loweredOld W d x entries),
      tickSum d S x (loweredOld W d x entries),
      List.zipWith (OperationType.apply .multiply) (tickSum d S x (loweredOld W d x entries)) (tickSum d S x (loweredOld W d x entries)),
      List.zipWith (OperationType.apply .divide) (List.zipWith (OperationType.apply .multiply) (tickSum d S x (loweredOld W d x entries)) (tickSum d S x (loweredOld W d x entries))) (List.replicate d (W : ℚ)),
      List.zipWith (OperationType.apply .multiply) x x]) = (List.zipWith (OperationType.apply .multiply) (loweredOld W d x entries) (loweredOld W d x entries), (.stateless)) := by
    simp only [Layer.step]
    rw [@resolve_delayed ([x,
      [(W : ℚ)],
      shiftOut W d (updateRowSamples (W + 1) entries x),
      List.zipWith (OperationType.apply .subtract) x (loweredOld W d x entries),
      tickSum d S x (loweredOld W d x entries),
      List.zipWith (OperationType.apply .multiply) (tickSum d S x (loweredOld W d x entries)) (tickSum d S x (loweredOld W d x entries)),
      List.zipWith (OperationType.apply .divide) (List.zipWith (OperationType.apply .multiply) (tickSum d S x (loweredOld W d x entries)) (tickSum d S x (loweredOld W d x entries))) (List.replicate d (W : ℚ)),
      List.zipWith (OperationType.apply .multiply) x x]) W d (updateRowSamples (W + 1) entries x) rfl]
    simp only [loweredOld]
  have key9 : Layer.step (.binaryOperation (coordinateRange 7 0 d) (coordinateRange 8 0 d) .subtract) (.stateless)
      ([x,
      [(W : ℚ)],
      shiftOut W d (updateRowSamples (W + 1) entries x),
      List.zipWith (OperationType.apply .subtract) x (loweredOld W d x entries),
      tickSum d S x (loweredOld W d x entries),
      List.zipWith (OperationType.apply .multiply) (tickSum d S x (loweredOld W d x entries)) (tickSum d S x (loweredOld W d x entries)),
      List.zipWith (OperationType.apply .divide) (List.zipWith (OperationType.apply .multiply) (tickSum d S x (loweredOld W d x entries)) (tickSum d S x (loweredOld W d x entries))) (List.replicate d (W : ℚ)),
      List.zipWith (OperationType.apply .multiply) x x,
      List.zipWith (OperationType.apply .multiply) (loweredOld W d x entries) (loweredOld W d x entries)]) = (List.zipWith (OperationType.apply .subtract) (List.zipWith (OperationType.apply .multiply) x x) (List.zipWith (OperationType.apply .multiply) (loweredOld W d x entries) (loweredOld W d x entries)), (.stateless)) := by
    simp only [Layer.step]
    rw [@resolve_coordinateRange_self ([x,
      [(W : ℚ)],
      shiftOut W d (updateRowSamples (W + 1) entries x),
      List.zipWith (OperationType.apply .subtract) x (loweredOld W d x entries),
      tickSum d S x (loweredOld W d x entries),
      List.zipWith (OperationType.apply .multiply) (tickSum d S x (loweredOld W d x entries)) (tickSum d S x (loweredOld W d x entries)),
      List.zipWith (OperationType.apply .divide) (List.zipWith (OperationType.apply .multiply) (tickSum d S x (loweredOld W d x entries)) (tickSum d S x (loweredOld W d x entries))) (List.replicate d (W : ℚ)),
      List.zipWith (OperationType.apply .multiply) x x,
      List.zipWith (OperationType.apply .multiply) (loweredOld W d x entries) (loweredOld W d x entries)]) 7 d (List.zipWith (OperationType.apply .multiply) x x) rfl (by simp [hx]),
      @resolve_coordinateRange_self ([x,
      [(W : ℚ)],
      shiftOut W d (updateRowSamples (W + 1) entries x),
      List.zipWith (OperationType.apply .subtract) x (loweredOld W d x entries),
      tickSum d S x (loweredOld W d x entries),
      List.zipWith (OperationType.apply .multiply) (tickSum d S x (loweredOld W d x entries)) (tickSum d S x (loweredOld W d x entries)),
      List.zipWith (OperationType.apply .divide) (List.zipWith (OperationType.apply .multiply) (tickSum d S x (loweredOld W d x entries)) (tickSum d S x (loweredOld W d x entries))) (List.replicate d (W : ℚ)),
      List.zipWith (OperationType.apply .multiply) x x,
      List.zipWith (OperationType.apply .multiply) (loweredOld W d x entries) (loweredOld W d x entries)]) 8 d (List.zipWith (OperationType.apply .multiply) (loweredOld W d x entries) (loweredOld W d x entries)) rfl (by simp [loweredOld])]
  have key10 : Layer.step (.accumulator (coordinateRange 9 0 d)) (.accumulator Q)
      ([x,
      [(W : ℚ)],
      shiftOut W d (updateRowSamples (W + 1) entries x),
      List.zipWith (OperationType.apply .subtract) x (loweredOld W d x entries),
      tickSum d S x (loweredOld W d x entries),
      List.zipWith (OperationType.apply .multiply) (tickSum d S x (loweredOld W d x entries)) (tickSum d S x (loweredOld W d x entries)),
      List.zipWith (OperationType.apply .divide) (List.zipWith (OperationType.apply .multiply) (tickSum d S x (loweredOld W d x entries)) (tickSum d S x (loweredOld W d x entries))) (List.replicate d (W : ℚ)),
      List.zipWith (OperationType.apply .multiply) x x,
      List.zipWith (OperationType.apply .multiply) (loweredOld W d x entries) (loweredOld W d x entries),
      List.zipWith (OperationType.apply .subtract) (List.zipWith (OperationType.apply .multiply) x x) (List.zipWith (OperationType.apply .multiply) (loweredOld W d x entries) (loweredOld W d x entries))]) = (tickSumSq d Q x (loweredOld W d x entries), (.accumulator (tickSumSq d Q x (loweredOld W d x entries)))) := by
    simp only [Layer.step]
    rw [@resolve_coordinateRange_self ([x,
      [(W : ℚ)],
      shiftOut W d (updateRowSamples (W + 1) entries x),
      List.zipWith (OperationType.apply .subtract) x (loweredOld W d x entries),
      tickSum d S x (loweredOld W d x entries),
      List.zipWith (OperationType.apply .multiply) (tickSum d S x (loweredOld W d x entries)) (tickSum d S x (loweredOld W d x entries)),
      List.zipWith (OperationType.apply .divide) (List.zipWith (OperationType.apply .multiply) (tickSum d S x (loweredOld W d x entries)) (tickSum d S x (loweredOld W d x entries))) (List.replicate d (W : ℚ)),
      List.zipWith (OperationType.apply .multiply) x x,
      List.zipWith (OperationType.apply .multiply) (loweredOld W d x entries) (loweredOld W d x entries),
      List.zipWith (OperationType.apply .subtract) (List.zipWith (OperationType.apply .multiply) x x) (List.zipWith (OperationType.apply .multiply) (loweredOld W d x entries) (loweredOld W d x entries))]) 9 d (List.zipWith (OperationType.apply .subtract) (List.zipWith (OperationType.apply .multiply) x x) (List.zipWith (OperationType.apply .multiply) (loweredOld W d x entries) (loweredOld W d x entries))) rfl (by simp [hx, loweredOld]),
      acc_sumsq_chain d Q x (loweredOld W d x entries) hQ hx (by simp [loweredOld])]
  have key11 : Layer.step (.binaryOperation (coordinateRange 10 0 d) (coordinateRange 6 0 d) .subtract) (.stateless)
      ([x,
      [(W : ℚ)],
      shiftOut W d (updateRowSamples (W + 1) entries x),
      List.zipWith (OperationType.apply .subtract) x (loweredOld W d x entries),
      tickSum d S x (loweredOld W d x entries),
      List.zipWith (OperationType.apply .multiply) (tickSum d S x (loweredOld W d x entries)) (tickSum d S x (loweredOld W d x entries)),
      List.zipWith (OperationType.apply .divide) (List.zipWith (OperationType.apply .multiply) (tickSum d S x (loweredOld W d x entries)) (tickSum d S x (loweredOld W d x entries))) (List.replicate d (W : ℚ)),
      List.zipWith (OperationType.apply .multiply) x x,
      List.zipWith (OperationType.apply .multiply) (loweredOld W d x entries) (loweredOld W d x entries),
      List.zipWith (OperationType.apply .subtract) (List.zipWith (OperationType.apply .multiply) x x) (List.zipWith (OperationType.apply .multiply) (loweredOld W d x entries) (loweredOld W d x entries)),
      tickSumSq d Q x (loweredOld W d x entries)]) = (List.zipWith (OperationType.apply .subtract) (tickSumSq d Q x (loweredOld W d x entries)) (List.zipWith (OperationType.apply .divide) (List.zipWith (OperationType.apply .multiply) (tickSum d S x (loweredOld W d x entries)) (tickSum d S x (loweredOld W d x entries))) (List.replicate d (W : ℚ))), (.stateless)) := by
    simp only [Layer.step]
    rw [@resolve_coordinateRange_self ([x,
      [(W : ℚ)],
      shiftOut W d (updateRowSamples (W + 1) entries x),
      List.zipWith (OperationType.apply .subtract) x (loweredOld W d x entries),
      tickSum d S x (loweredOld W d x entries),
      List.zipWith (OperationType.apply .multiply) (tickSum d S x (loweredOld W d x entries)) (tickSum d S x (loweredOld W d x entries)),
      List.zipWith (OperationType.apply .divide) (List.zipWith (OperationType.apply .multiply) (tickSum d S x (loweredOld W d x entries)) (tickSum d S x (loweredOld W d x entries))) (List.replicate d (W : ℚ)),
      List.zipWith (OperationType.apply .multiply) x x,
      List.zipWith (OperationType.apply .multiply) (loweredOld W d x entries) (loweredOld W d x entries),
      List.zipWith (OperationType.apply .subtract) (List.zipWith (OperationType.apply .multiply) x x) (List.zipWith (OperationType.apply .multiply) (loweredOld W d x entries) (loweredOld W d x entries)),
      tickSumSq d Q x (loweredOld W d x entries)]) 10 d (tickSumSq d Q x (loweredOld W d x entries)) rfl (by simp [tickSumSq]),
      @resolve_coordinateRange_self ([x,
      [(W : ℚ)],
      shiftOut W d (updateRowSamples (W + 1) entries x),
      List.zipWith (OperationType.apply .subtract) x (loweredOld W d x entries),
      tickSum d S x (loweredOld W d x entries),
      List.zipWith (OperationType.apply .multiply) (tickSum d S x (loweredOld W d x entries)) (tickSum d S x (loweredOld W d x entries)),
      List.zipWith (OperationType.apply .divide) (List.zipWith (OperationType.apply .multiply) (tickSum d S x (loweredOld W d x entries)) (tickSum d S x (loweredOld W d x entries))) (List.replicate d (W : ℚ)),
      List.zipWith (OperationType.apply .multiply) x x,
      List.zipWith (OperationType.apply .multiply) (loweredOld W d x entries) (loweredOld W d x entries),
      List.zipWith (OperationType.apply .subtract) (List.zipWith (OperationType.apply .multiply) x x) (List.zipWith (OperationType.apply .multiply) (loweredOld W d x entries) (loweredOld W d x entries)),
      tickSumSq d Q x (loweredOld W d x entries)]) 6 d (List.zipWith (OperationType.apply .divide) (List.zipWith (OperationType.apply .multiply) (tickSum d S x (loweredOld W d x entries)) (tickSum d S x (loweredOld W d x entries))) (List.replicate d (W : ℚ))) rfl (by simp [tickSum])]
  have key12 : Layer.step (.binaryOperation (coordinateRange 11 0 d) (List.replicate d ⟨1, 0⟩) .divide) (.stateless)
      ([x,
      [(W : ℚ)],
      shiftOut W d (updateRowSamples (W + 1) entries x),
      List.zipWith (OperationType.apply .subtract) x (loweredOld W d x entries),
      tickSum d S x (loweredOld W d x entries),
      List.zipWith (OperationType.apply .multiply) (tickSum d S x (loweredOld W d x entries)) (tickSum d S x (loweredOld W d x entries)),
      List.zipWith (OperationType.apply .divide) (List.zipWith (OperationType.apply .multiply) (tickSum d S x (loweredOld W d x entries)) (tickSum d S x (loweredOld W d x entries))) (List.replicate d (W : ℚ)),
      List.zipWith (OperationType.apply .multiply) x x,
      List.zipWith (OperationType.apply .multiply) (loweredOld W d x entries) (loweredOld W d x entries),
      List.zipWith (OperationType.apply .subtract) (List.zipWith (OperationType.apply .multiply) x x) (List.zipWith (OperationType.apply .multiply) (loweredOld W d x entries) (loweredOld W d x entries)),
      tickSumSq d Q x (loweredOld W d x entries),
      List.zipWith (OperationType.apply .subtract) (tickSumSq d Q x (loweredOld W d x entries)) (List.zipWith (OperationType.apply .divide) (List.zipWith (OperationType.apply .multiply) (tickSum d S x (loweredOld W d x entries)) (tickSum d S x (loweredOld W d x entries))) (List.replicate d (W : ℚ)))]) = (List.zipWith (OperationType.apply .divide) (List.zipWith (OperationType.apply .subtract) (tickSumSq d Q x (loweredOld W d x entries)) (List.zipWith (OperationType.apply .divide) (List.zipWith (OperationType.apply .multiply) (tickSum d S x (loweredOld W d x entries)) (tickSum d S x (loweredOld W d x entries))) (List.replicate d (W : ℚ)))) (List.replicate d (W : ℚ)), (.stateless)) := by
    simp only [Layer.step]
    rw [@resolve_coordinateRange_self ([x,
      [(W : ℚ)],
      shiftOut W d (updateRowSamples (W + 1) entries x),
      List.zipWith (OperationType.apply .subtract) x (loweredOld W d x entries),
      tickSum d S x (loweredOld W d x entries),
      List.zipWith (OperationType.apply .multiply) (tickSum d S x (loweredOld W d x entries)) (tickSum d S x (loweredOld W d x entries)),
      List.zipWith (OperationType.apply .divide) (List.zipWith (OperationType.apply .multiply) (tickSum d S x (loweredOld W d x entries)) (tickSum d S x (loweredOld W d x entries))) (List.replicate d (W : ℚ)),
      List.zipWith (OperationType.apply .multiply) x x,
      List.zipWith (OperationType.apply .multiply) (loweredOld W d x entries) (loweredOld W d x entries),
      List.zipWith (OperationType.apply .subtract) (List.zipWith (OperationType.apply .multiply) x x) (List.zipWith (OperationType.apply .multiply) (loweredOld W d x entries) (loweredOld W d x entries)),
      tickSumSq d Q x (loweredOld W d x entries),
      List.zipWith (OperationType.apply .subtract) (tickSumSq d Q x (loweredOld W d x entries)) (List.zipWith (OperationType.apply .divide) (List.zipWith (OperationType.apply .multiply) (tickSum d S x (loweredOld W d x entries)) (tickSum d S x (loweredOld W d x entries))) (List.replicate d (W : ℚ)))]) 11 d (List.zipWith (OperationType.apply .subtract) (tickSumSq d Q x (loweredOld W d x entries)) (List.zipWith (OperationType.apply .divide) (List.zipWith (OperationType.apply .multiply) (tickSum d S x (loweredOld W d x entries)) (tickSum d S x (loweredOld W d x entries))) (List.replicate d (W : ℚ)))) rfl (by simp [tickSumSq, tickSum]),
      resolve_replicate ([x,
      [(W : ℚ)],
      shiftOut W d (updateRowSamples (W + 1) entries x),
      List.zipWith (OperationType.apply .subtract) x (loweredOld W d x entries),
      tickSum d S x (loweredOld W d x entries),
      List.zipWith (OperationType.apply .multiply) (tickSum d S x (loweredOld W d x entries)) (tickSum d S x (loweredOld W d x entries)),
      List.zipWith (OperationType.apply .divide) (List.zipWith (OperationType.apply .multiply) (tickSum d S x (loweredOld W d x entries)) (tickSum d S x (loweredOld W d x entries))) (List.replicate d (W : ℚ)),
      List.zipWith (OperationType.apply .multiply) x x,
      List.zipWith (OperationType.apply .multiply) (loweredOld W d x entries) (loweredOld W d x entries),
      List.zipWith (OperationType.apply .subtract) (List.zipWith (OperationType.apply .multiply) x x) (List.zipWith (OperationType.apply .multiply) (loweredOld W d x entries) (loweredOld W d x entries)),
      tickSumSq d Q x (loweredOld W d x entries),
      List.zipWith (OperationType.apply .subtract) (tickSumSq d Q x (loweredOld W d x entries)) (List.zipWith (OperationType.apply .divide) (List.zipWith (OperationType.apply .multiply) (tickSum d S x (loweredOld W d x entries)) (tickSum d S x (loweredOld W d x entries))) (List.replicate d (W : ℚ)))]) ⟨1, 0⟩ d]
    rfl
  simp only [loweredLayers, loweredStates, List.zip_cons_cons, List.zip_nil_right,
    stepLayers, List.cons_append, List.nil_append, key1, key2, key3, key4, key5, key6,
    key7, key8, key9, key10, key11, key12]

lemma addToModel_spec {W d : ℕ} {f : FeatureId} {fo : List (FeatureId × CoordinateList)}
    (hl : fo.lookup f = some (coordinateRange 0 0 d)) :
    addToModel W f emptyModel fo =
      (.ok (coordinateRange 12 0 d), ⟨loweredLayers W d⟩) := by
  have harith : (W + 1) * d - W * d = d := by
    rw [Nat.succ_mul]
    omega
  have hone : coordinateRange 1 0 1 = [(⟨1, 0⟩ : Coordinate)] := rfl
  simp only [addToModel, hl, emplaceLayer, emptyModel, Layer.outputWidth,
    Layer.getDelayedOutputCoordinates, coordinateRange_length, repeatCoordinates_single,
    coordinateRange_drop, coordinateRange_take, harith, Nat.zero_add, Nat.min_self,
    List.nil_append, List.cons_append, List.length_nil, List.length_cons,
    List.length_append, loweredLayers, hone]

lemma initialState_lowered (W d : ℕ) :
    Model.initialState ⟨loweredLayers W d⟩ =
      loweredStates [] (List.replicate d 0) (List.replicate d 0) := by
  simp [Model.initialState, loweredLayers, Layer.initialState, loweredStates,
    coordinateRange_length]

lemma resolve_lowered_out (W d : ℕ) (x : List ℚ) (entries : List (List ℚ)) (S Q : List ℚ) :
    resolveCoordinates
      ([x,
      [(W : ℚ)],
      shiftOut W d (updateRowSamples (W + 1) entries x),
      List.zipWith (OperationType.apply .subtract) x (loweredOld W d x entries),
      tickSum d S x (loweredOld W d x entries),
      List.zipWith (OperationType.apply .multiply) (tickSum d S x (loweredOld W d x entries)) (tickSum d S x (loweredOld W d x entries)),
      List.zipWith (OperationType.apply .divide) (List.zipWith (OperationType.apply .multiply) (tickSum d S x (loweredOld W d x entries)) (tickSum d S x (loweredOld W d x entries))) (List.replicate d (W : ℚ)),
      List.zipWith (OperationType.apply .multiply) x x,
      List.zipWith (OperationType.apply .multiply) (loweredOld W d x entries) (loweredOld W d x entries),
      List.zipWith (OperationType.apply .subtract) (List.zipWith (OperationType.apply .multiply) x x) (List.zipWith (OperationType.apply .multiply) (loweredOld W d x entries) (loweredOld W d x entries)),
      tickSumSq d Q x (loweredOld W d x entries),
      List.zipWith (OperationType.apply .subtract) (tickSumSq d Q x (loweredOld W d x entries)) (List.zipWith (OperationType.apply .divide) (List.zipWith (OperationType.apply .multiply) (tickSum d S x (loweredOld W d x entries)) (tickSum d S x (loweredOld W d x entries))) (List.replicate d (W : ℚ))),
      List.zipWith (OperationType.apply .divide) (List.zipWith (OperationType.apply .subtract) (tickSumSq d Q x (loweredOld W d x entries)) (List.zipWith (OperationType.apply .divide) (List.zipWith (OperationType.apply .multiply) (tickSum d S x (loweredOld W d x entries)) (tickSum d S x (loweredOld W d x entries))) (List.replicate d (W : ℚ)))) (List.replicate d (W : ℚ))])
      (coordinateRange 12 0 d) = tickFormula W d S Q x (loweredOld W d x entries) := by
  rw [@resolve_coordinateRange_self
      ([x,
      [(W : ℚ)],
      shiftOut W d (updateRowSamples (W + 1) entries x),
      List.zipWith (OperationType.apply .subtract) x (loweredOld W d x entries),
      tickSum d S x (loweredOld W d x entries),
      List.zipWith (OperationType.apply .multiply) (tickSum d S x (loweredOld W d x entries)) (tickSum d S x (loweredOld W d x entries)),
      List.zipWith (OperationType.apply .divide) (List.zipWith (OperationType.apply .multiply) (tickSum d S x (loweredOld W d x entries)) (tickSum d S x (loweredOld W d x entries))) (List.replicate d (W : ℚ)),
      List.zipWith (OperationType.apply .multiply) x x,
      List.zipWith (OperationType.apply .multiply) (loweredOld W d x entries) (loweredOld W d x entries),
      List.zipWith (OperationType.apply .subtract) (List.zipWith (OperationType.apply .multiply) x x) (List.zipWith (OperationType.apply .multiply) (loweredOld W d x entries) (loweredOld W d x entries)),
      tickSumSq d Q x (loweredOld W d x entries),
      List.zipWith (OperationType.apply .subtract) (tickSumSq d Q x (loweredOld W d x entries)) (List.zipWith (OperationType.apply .divide) (List.zipWith (OperationType.apply .multiply) (tickSum d S x (loweredOld W d x entries)) (tickSum d S x (loweredOld W d x entries))) (List.replicate d (W : ℚ))),
      List.zipWith (OperationType.apply .divide) (List.zipWith (OperationType.apply .subtract) (tickSumSq d Q x (loweredOld W d x entries)) (List.zipWith (OperationType.apply .divide) (List.zipWith (OperationType.apply .multiply) (tickSum d S x (loweredOld W d x entries)) (tickSum d S x (loweredOld W d x entries))) (List.replicate d (W : ℚ)))) (List.replicate d (W : ℚ))])
      12 d (List.zipWith (OperationType.apply .divide) (List.zipWith (OperationType.apply .subtract) (tickSumSq d Q x (loweredOld W d x entries)) (List.zipWith (OperationType.apply .divide) (List.zipWith (OperationType.apply .multiply) (tickSum d S x (loweredOld W d x entries)) (tickSum d S x (loweredOld W d x entries))) (List.replicate d (W : ℚ)))) (List.replicate d (W : ℚ))) rfl (by simp [tickSumSq, tickSum])]
  exact variance_chain W d S Q x (loweredOld W d x entries)

lemma computeOutput_spec {W : ℕ} {s : VarianceState} {x : List ℚ} (hd : x ≠ []) :
    computeOutput W s x = .ok
      (tickFormula W x.length (resizeZero s.runningSum x.length)
          (resizeZero s.runningSumSq x.length) x
          (resizeZero (getDelayedSamples s.samples (W - 1)) x.length),
        ⟨updateRowSamples W s.samples x,
          tickSum x.length (resizeZero s.runningSum x.length) x
            (resizeZero (getDelayedSamples s.samples (W - 1)) x.length),
          tickSumSq x.length (resizeZero s.runningSumSq x.length) x
            (resizeZero (getDelayedSamples s.samples (W - 1)) x.length),
          x.length⟩) := by
  have hlen : ¬ x.length = 0 := by simpa using hd
  simp only [computeOutput, hlen, if_false]
  refine congrArg Except.ok (Prod.ext ?_ rfl)
  apply map_range_ext
  intro i hi
  rw [getD_map_range hi, getD_map_range hi]

lemma old_agree {W d : ℕ} (x : List ℚ) (entries : List (List ℚ)) (hW : 0 < W) :
    resizeZero (getDelayedSamples (entries.take W) (W - 1)) d = loweredOld W d x entries := by
  cases W with
  | zero => omega
  | succ W' =>
    have h1 : (entries.take (W' + 1)).getD W' ([] : List ℚ) = entries.getD W' [] :=
      getD_take' (by omega)
    have h2 : ((x :: entries).take (W' + 1 + 1)).getD (W' + 1) ([] : List ℚ) =
        (x :: entries).getD (W' + 1) [] := getD_take' (by omega)
    simp only [getDelayedSamples, loweredOld, updateRowSamples, Nat.add_sub_cancel, h1, h2,
      List.getD_cons_succ]

lemma samples_agree {W : ℕ} (x : List ℚ) (entries : List (List ℚ)) :
    updateRowSamples W (entries.take W) x = (updateRowSamples (W + 1) entries x).take W := by
  cases W with
  | zero => rfl
  | succ W' =>
    simp only [updateRowSamples, List.take_take, Nat.succ_min_succ, List.take_succ_cons]

lemma run_equiv (W d : ℕ) (hW : 0 < W) (hd : 0 < d) (inputs : List (List ℚ)) :
    ∀ (s : VarianceState) (entries : List (List ℚ)) (S Q : List ℚ),
      (∀ v ∈ inputs, v.length = d) →
      s.samples = entries.take W →
      resizeZero s.runningSum d = S →
      resizeZero s.runningSumSq d = Q →
      S.length = d → Q.length = d →
      runVariance W s inputs =
        .ok ((Model.mk (loweredLayers W d)).run (coordinateRange 12 0 d)
          (loweredStates entries S Q) inputs) := by
  induction inputs with
  | nil =>
    intro s entries S Q _ _ _ _ _ _
    simp [runVariance, Model.run]
  | cons x xs ih =>
    intro s entries S Q hdim hsamp hS hQ hSlen hQlen
    have hx : x.length = d := hdim x (by simp)
    have hxne : x ≠ [] := by
      intro h
      rw [h] at hx
      simp at hx
      omega
    have hold : resizeZero (getDelayedSamples s.samples (W - 1)) d =
        loweredOld W d x entries := by
      rw [hsamp]
      exact old_agree x entries hW
    have hsamp' : updateRowSamples W s.samples x =
        (updateRowSamples (W + 1) entries x).take W := by
      rw [hsamp]
      exact samples_agree x entries
    have step := stepLayers_lowered W d x entries S Q hx hSlen hQlen
    have read := resolve_lowered_out W d x entries S Q
    have tail := ih (⟨updateRowSamples W s.samples x,
        tickSum d S x (loweredOld W d x entries),
        tickSumSq d Q x (loweredOld W d x entries), d⟩ : VarianceState)
      (updateRowSamples (W + 1) entries x)
      (tickSum d S x (loweredOld W d x entries))
      (tickSumSq d Q x (loweredOld W d x entries))
      (fun v hv => hdim v (by simp [hv]))
      hsamp'
      (resizeZero_of_length (by simp [tickSum]))
      (resizeZero_of_length (by simp [tickSumSq]))
      (by simp [tickSum]) (by simp [tickSumSq])
    rw [runVariance, computeOutput_spec hxne, hx, hS, hQ, hold]
    simp only [Model.run, step, read, tail]

lemma sumAt_take_succ (h : List (List ℚ)) (n j : ℕ) :
    sumAt (h.take (n + 1)) j = sumAt (h.take n) j + (h.getD n []).getD j 0 := by
  rw [sumAt, sumAt, List.take_succ, List.map_append, List.sum_append]
  congr 1
  cases hn : h[n]? with
  | none => simp [List.getD, hn]
  | some v => simp [List.getD, hn]

lemma sumSqAt_take_succ (h : List (List ℚ)) (n j : ℕ) :
    sumSqAt (h.take (n + 1)) j =
      sumSqAt (h.take n) j + (h.getD n []).getD j 0 * (h.getD n []).getD j 0 := by
  rw [sumSqAt, sumSqAt, List.take_succ, List.map_append, List.sum_append]
  congr 1
  cases hn : h[n]? with
  | none => simp [List.getD, hn]
  | some v => simp [List.getD, hn]

lemma push_take {W : ℕ} (x : List ℚ) (h : List (List ℚ)) :
    (x :: h.take W).take W = (x :: h).take W := by
  cases W with
  | zero => rfl
  | succ W' =>
    simp only [List.take_succ_cons, List.take_take, Nat.succ_min_succ]
    rw [show min W' (W' + 1) = W' by omega]

lemma sumAt_window_step {W j : ℕ} (hW : 0 < W) (x : List ℚ) (h : List (List ℚ)) :
    sumAt ((x :: h).take W) j =
      sumAt (h.take W) j + (x.getD j 0 - (h.getD (W - 1) []).getD j 0) := by
  cases W with
  | zero => omega
  | succ W' =>
    rw [List.take_succ_cons, show W' + 1 - 1 = W' by omega, sumAt_take_succ]
    simp [sumAt]
    ring

lemma sumSqAt_window_step {W j : ℕ} (hW : 0 < W) (x : List ℚ) (h : List (List ℚ)) :
    sumSqAt ((x :: h).take W) j =
      sumSqAt (h.take W) j +
        (x.getD j 0 * x.getD j 0 -
          (h.getD (W - 1) []).getD j 0 * (h.getD (W - 1) []).getD j 0) := by
  cases W with
  | zero => omega
  | succ W' =>
    rw [List.take_succ_cons, show W' + 1 - 1 = W' by omega, sumSqAt_take_succ]
    simp [sumSqAt]
    ring

lemma directVariance_reverse (W : ℕ) (l : List (List ℚ)) (j : ℕ) :
    directVariance W l.reverse j = directVariance W l j := by
  simp [directVariance, sumAt, sumSqAt, List.map_reverse, List.sum_reverse]

lemma map_range_zero (d : ℕ) : (List.range d).map (fun _ => (0 : ℚ)) = List.replicate d 0 := by
  apply ext_getD (by simp)
  intro i hi
  simp only [List.length_map, List.length_range] at hi
  rw [getD_map_range hi, getD_replicate hi]

lemma runVariance_closed (W d : ℕ) (hW : 0 < W) (hd : 0 < d) (inputs : List (List ℚ)) :
    ∀ (s : VarianceState) (h : List (List ℚ)),
      (∀ v ∈ inputs, v.length = d) →
      s.samples = h.take W →
      resizeZero s.runningSum d = ((List.range d).map fun j => sumAt (h.take W) j) →
      resizeZero s.runningSumSq d = ((List.range d).map fun j => sumSqAt (h.take W) j) →
      ∃ outs, runVariance W s inputs = .ok outs ∧
        outs.length = inputs.length ∧
        ∀ t < inputs.length, outs.getD t [] =
          (List.range d).map fun j =>
            directVariance W (((inputs.take (t + 1)).reverse ++ h).take W) j := by
  induction inputs with
  | nil =>
    intro s h _ _ _ _
    exact ⟨[], rfl, rfl, by intro t ht; simp at ht⟩
  | cons x xs ih =>
    intro s h hdim hsamp hS hQ
    have hx : x.length = d := hdim x (by simp)
    have hxne : x ≠ [] := by
      intro hc
      rw [hc] at hx
      simp at hx
      omega
    have hold : ∀ j < d, (resizeZero (getDelayedSamples s.samples (W - 1)) d).getD j 0 =
        (h.getD (W - 1) []).getD j 0 := by
      intro j hj
      rw [resizeZero_getD hj, hsamp, getDelayedSamples, getD_take' (by omega)]
    have hSj : ∀ j < d, (resizeZero s.runningSum d).getD j 0 = sumAt (h.take W) j := by
      intro j hj
      rw [hS, getD_map_range hj]
    have hQj : ∀ j < d, (resizeZero s.runningSumSq d).getD j 0 = sumSqAt (h.take W) j := by
      intro j hj
      rw [hQ, getD_map_range hj]
    have htick : tickFormula W d (resizeZero s.runningSum d) (resizeZero s.runningSumSq d) x
        (resizeZero (getDelayedSamples s.samples (W - 1)) d) =
        (List.range d).map fun j => directVariance W ((x :: h).take W) j := by
      apply map_range_ext
      intro j hj
      rw [hold j hj, hSj j hj, hQj j hj, directVariance,
        sumAt_window_step hW, sumSqAt_window_step hW]
    have hsamp2 : updateRowSamples W s.samples x = (x :: h).take W := by
      rw [hsamp]
      exact push_take x h
    have hSinv : resizeZero (tickSum d (resizeZero s.runningSum d) x
        (resizeZero (getDelayedSamples s.samples (W - 1)) d)) d =
        ((List.range d).map fun j => sumAt ((x :: h).take W) j) := by
      rw [resizeZero_of_length (by simp [tickSum])]
      apply map_range_ext
      intro j hj
      rw [hold j hj, hSj j hj, sumAt_window_step hW]
    have hQinv : resizeZero (tickSumSq d (resizeZero s.runningSumSq d) x
        (resizeZero (getDelayedSamples s.samples (W - 1)) d)) d =
        ((List.range d).map fun j => sumSqAt ((x :: h).take W) j) := by
      rw [resizeZero_of_length (by simp [tickSumSq])]
      apply map_range_ext
      intro j hj
      rw [hold j hj, hQj j hj, sumSqAt_window_step hW]
    obtain ⟨outs, houts, hlen, hspec⟩ := ih
      (⟨updateRowSamples W s.samples x,
        tickSum d (resizeZero s.runningSum d) x
          (resizeZero (getDelayedSamples s.samples (W - 1)) d),
        tickSumSq d (resizeZero s.runningSumSq d) x
          (resizeZero (getDelayedSamples s.samples (W - 1)) d),
        d⟩ : VarianceState)
      (x :: h)
      (fun v hv => hdim v (by simp [hv]))
      hsamp2 hSinv hQinv
    refine ⟨tickFormula W d (resizeZero s.runningSum d) (resizeZero s.runningSumSq d) x
        (resizeZero (getDelayedSamples s.samples (W - 1)) d) :: outs, ?_, by simp [hlen], ?_⟩
    · rw [runVariance, computeOutput_spec hxne, hx]
      simp only [houts]
    · intro t ht
      cases t with
      | zero =>
        rw [List.getD_cons_zero, htick]
        simp
      | succ t' =>
        rw [List.getD_cons_succ, hspec t' (by simpa using ht)]
        congr 2
        simp [List.reverse_cons, List.append_assoc]

/-!
## Claim theorems
-/

/-- Claim C1: for every valid lowering configuration (positive window size,
positive input width, input feature already lowered to the external input
coordinates) and every input sample sequence of that width, simulating the
Layer graph produced by AddToModel yields, at every tick and in every
dimension, exactly the same output vector sequence as the interpreted
evaluator ComputeOutput advanced over the same samples. -/
theorem lowered_graph_matches_interpreter (W d : ℕ) (inputFeature : FeatureId)
    (featureOutputs : List (FeatureId × CoordinateList)) (inputs : List (List ℚ))
    (hW : 0 < W) (hd : 0 < d)
    (hl : featureOutputs.lookup inputFeature = some (coordinateRange 0 0 d))
    (hdim : ∀ v ∈ inputs, v.length = d) :
    ∃ (variance : CoordinateList) (m : Model),
      addToModel W inputFeature emptyModel featureOutputs = (.ok variance, m) ∧
      runVariance W initialVarianceState inputs =
        .ok (m.run variance m.initialState inputs) := by
  refine ⟨coordinateRange 12 0 d, ⟨loweredLayers W d⟩, addToModel_spec hl, ?_⟩
  rw [show (Model.mk (loweredLayers W d)).initialState =
      loweredStates [] (List.replicate d 0) (List.replicate d 0) from initialState_lowered W d]
  exact run_equiv W d hW hd inputs initialVarianceState [] (List.replicate d 0)
    (List.replicate d 0) hdim
    (by simp [initialVarianceState])
    (by simp [initialVarianceState, resizeZero])
    (by simp [initialVarianceState, resizeZero])
    (by simp) (by simp)

/-- Witness for C1 at window size 3, dimension 1, inputs [1], [2], [3]. -/
theorem lowered_graph_matches_interpreter_witness :
    ∃ (variance : CoordinateList) (m : Model),
      addToModel 3 "input" emptyModel [("input", coordinateRange 0 0 1)] =
        (.ok variance, m) ∧
      runVariance 3 initialVarianceState [[1], [2], [3]] =
        .ok (m.run variance m.initialState [[1], [2], [3]]) :=
  lowered_graph_matches_interpreter 3 1 "input" [("input", coordinateRange 0 0 1)]
    [[1], [2], [3]] (by decide) (by decide) (by decide) (by decide)

/-- Claim C2: for sample streams of the declared dimension, the interpreted
evaluator's output at every tick with a full window equals the population
variance recomputed directly from the explicit last windowSize samples; in
particular for dimension 1, window size 3 and stream [1,2,3,4,5] the outputs
at ticks 3, 4, 5 all equal 2/3. -/
theorem computeOutput_matches_direct_variance :
    (∀ (W d : ℕ) (inputs outs : List (List ℚ)),
      0 < W → 0 < d → (∀ v ∈ inputs, v.length = d) →
      runVariance W initialVarianceState inputs = .ok outs →
      ∀ t < inputs.length, W ≤ t + 1 → ∀ j < d,
        (outs.getD t []).getD j 0 =
          directVariance W ((inputs.take (t + 1)).drop (t + 1 - W)) j) ∧
    runVariance 3 initialVarianceState [[1], [2], [3], [4], [5]] =
      .ok [[2/9], [2/3], [2/3], [2/3], [2/3]] := by
  refine ⟨?_, by
    norm_num [runVariance, computeOutput, initialVarianceState, getDelayedSamples,
      updateRowSamples, resizeZero, List.range_succ]⟩
  · intro W d inputs outs hW hd hdim hrun t ht hfull j hj
    obtain ⟨outs₀, houts₀, hlen, hspec⟩ := runVariance_closed W d hW hd inputs
      initialVarianceState [] hdim
      (by simp [initialVarianceState])
      (by simp [initialVarianceState, resizeZero, sumAt, map_range_zero])
      (by simp [initialVarianceState, resizeZero, sumSqAt, map_range_zero])
    rw [houts₀] at hrun
    injection hrun with hrun
    subst hrun
    rw [hspec t ht, getD_map_range hj, List.append_nil, List.take_reverse,
      directVariance_reverse,
      show (inputs.take (t + 1)).length = t + 1 from by
        simp [List.length_take]
        omega]

/-- Witness for C2 at window size 3, dimension 1, stream [1,2,3,4,5],
tick 3 (index 2). -/
theorem computeOutput_matches_direct_variance_witness :
    (([[2/9], [2/3], [2/3], [2/3], [2/3]] : List (List ℚ)).getD 2 []).getD 0 0 =
      directVariance 3
        ((([[1], [2], [3], [4], [5]] : List (List ℚ)).take 3).drop 0) 0 :=
  computeOutput_matches_direct_variance.1 3 1 [[1], [2], [3], [4], [5]]
    [[2/9], [2/3], [2/3], [2/3], [2/3]] (by decide) (by decide) (by decide)
    computeOutput_matches_direct_variance.2 2 (by decide) (by decide) 0 (by decide)

/-- Claim C3: computing output with a zero-dimensional input raises an
invalid-argument exception rather than returning a value. -/
theorem computeOutput_zero_dimension_error (W : ℕ) (s : VarianceState) :
    computeOutput W s [] =
      .error ⟨.invalidArgument, "Invalid input of size zero"⟩ := rfl

/-- Counterexample to claim C4 as stated: after a first call with input
dimension 1, a second call with input dimension 2 is not an error — it
succeeds, and the established output dimension changes from 1 to 2. -/
theorem outputDimension_not_fixed_counterexample :
    ∃ r₁ : List ℚ × VarianceState,
      computeOutput 2 initialVarianceState [1] = .ok r₁ ∧
      r₁.2.outputDimension = 1 ∧
      ∃ r₂ : List ℚ × VarianceState,
        computeOutput 2 r₁.2 [2, 3] = .ok r₂ ∧ r₂.2.outputDimension = 2 :=
  ⟨_, rfl, rfl, _, rfl, rfl⟩

/-- Amended claim C4: the output dimension is re-established on every
successful call — a later call with a different non-zero input dimension
succeeds (no dimension check is performed) and overwrites the established
output dimension with the latest input's dimension. -/
theorem outputDimension_tracks_latest_input (W : ℕ) (s : VarianceState) (x : List ℚ)
    (hx : x ≠ []) :
    ∃ r s', computeOutput W s x = .ok (r, s') ∧ s'.outputDimension = x.length :=
  ⟨_, _, computeOutput_spec hx, rfl⟩

/-- Witness for the amended C4. -/
theorem outputDimension_tracks_latest_input_witness :
    ∃ r s', computeOutput 2 initialVarianceState [5] = .ok (r, s') ∧
      s'.outputDimension = ([5] : List ℚ).length :=
  outputDimension_tracks_latest_input 2 initialVarianceState [5] (by decide)

/-- Claim C9: ComputeOutput is not a read-only query: every successful call
pushes the live sample into the window buffer and adds the entering/leaving
deltas to both accumulators, so a second call without the input advancing
shifts the window again. -/
theorem computeOutput_mutates_state (W : ℕ) (s : VarianceState) (x : List ℚ)
    (hx : x ≠ []) :
    ∃ r s', computeOutput W s x = .ok (r, s') ∧
      s'.samples = (x :: s.samples).take W ∧
      (∀ j < x.length,
        s'.runningSum.getD j 0 = (resizeZero s.runningSum x.length).getD j 0 +
          (x.getD j 0 -
            (resizeZero (getDelayedSamples s.samples (W - 1)) x.length).getD j 0)) ∧
      (∀ j < x.length,
        s'.runningSumSq.getD j 0 = (resizeZero s.runningSumSq x.length).getD j 0 +
          (x.getD j 0 * x.getD j 0 -
            (resizeZero (getDelayedSamples s.samples (W - 1)) x.length).getD j 0 *
              (resizeZero (getDelayedSamples s.samples (W - 1)) x.length).getD j 0)) ∧
      ∃ r₂ s'', computeOutput W s' x = .ok (r₂, s'') ∧
        s''.samples = (x :: (x :: s.samples).take W).take W := by
  refine ⟨_, _, computeOutput_spec hx, rfl, fun j hj => ?_, fun j hj => ?_, ?_⟩
  · exact getD_map_range hj
  · exact getD_map_range hj
  · exact ⟨_, _, computeOutput_spec hx, rfl⟩

/-- Witness for C9. -/
theorem computeOutput_mutates_state_witness :
    ∃ r s', computeOutput 2 initialVarianceState [7] = .ok (r, s') ∧
      s'.samples = (([7] : List ℚ) :: initialVarianceState.samples).take 2 ∧
      (∀ j < ([7] : List ℚ).length,
        s'.runningSum.getD j 0 =
          (resizeZero initialVarianceState.runningSum ([7] : List ℚ).length).getD j 0 +
          (([7] : List ℚ).getD j 0 -
            (resizeZero (getDelayedSamples initialVarianceState.samples (2 - 1))
              ([7] : List ℚ).length).getD j 0)) ∧
      (∀ j < ([7] : List ℚ).length,
        s'.runningSumSq.getD j 0 =
          (resizeZero initialVarianceState.runningSumSq ([7] : List ℚ).length).getD j 0 +
          (([7] : List ℚ).getD j 0 * ([7] : List ℚ).getD j 0 -
            (resizeZero (getDelayedSamples initialVarianceState.samples (2 - 1))
              ([7] : List ℚ).length).getD j 0 *
              (resizeZero (getDelayedSamples initialVarianceState.samples (2 - 1))
                ([7] : List ℚ).length).getD j 0)) ∧
      ∃ r₂ s'', computeOutput 2 s' [7] = .ok (r₂, s'') ∧
        s''.samples = (([7] : List ℚ) :: (([7] : List ℚ) ::
          initialVarianceState.samples).take 2).take 2 :=
  computeOutput_mutates_state 2 initialVarianceState [7] (by decide)

/-- Claim C5: AddToModel throws an illegal-state error and appends no Layer
when the declared input feature has no entry in the feature-outputs map, and
proceeds (appending the twelve lowered layers) when the entry is present. -/
theorem addToModel_missing_input (W : ℕ) (f : FeatureId) (m : Model)
    (fo : List (FeatureId × CoordinateList)) :
    (fo.lookup f = none →
      addToModel W f m fo =
        (.error ⟨.illegalState, "Couldn't find input feature"⟩, m)) ∧
    (∀ ic, fo.lookup f = some ic →
      ∃ out m', addToModel W f m fo = (.ok out, m') ∧
        m'.layers.length = m.layers.length + 12) := by
  constructor
  · intro h
    simp [addToModel, h]
  · intro ic h
    simp only [addToModel, h, emplaceLayer]
    exact ⟨_, _, rfl, by simp⟩

/-- Witness for C5: a missing entry leaves the model untouched; a present
entry appends twelve layers. -/
theorem addToModel_missing_input_witness :
    (addToModel 1 "a" emptyModel [] =
      (.error ⟨.illegalState, "Couldn't find input feature"⟩, emptyModel)) ∧
    ∃ out m', addToModel 1 "a" emptyModel [("a", coordinateRange 0 0 1)] =
      (.ok out, m') ∧ m'.layers.length = emptyModel.layers.length + 12 :=
  ⟨(addToModel_missing_input 1 "a" emptyModel []).1 rfl,
    (addToModel_missing_input 1 "a" emptyModel [("a", coordinateRange 0 0 1)]).2
      (coordinateRange 0 0 1) rfl⟩

/-- Counterexample to claim C6 as stated: when the inputFeatureId is unknown
and the windowSize text is malformed, Create fails with the integer-parse
error thrown by ParseInt, not with an error naming the missing id. -/
theorem create_unknown_input_parse_error_counterexample :
    (Create ["f1", "VarianceFeature", "foo", "abc"] []).1 =
      .error ⟨.badStringFormat, "Error parsing integer"⟩ ∧
    "Error parsing integer" ≠
      "Error deserializing feature description: unknown input feature foo" := by
  exact ⟨rfl, by decide⟩

/-- Amended claim C6: ParseInt on the windowSize parameter runs before the
input-feature check.  When it succeeds, an unbound (or null) input feature id
yields the deserialization error naming the id, and a bound id yields the
feature built from the id, the looked-up pointer and the parsed windowSize;
when it fails, its parse error is thrown instead. -/
theorem create_unknown_input_error (params : List String) (m : FeatureMap) :
    (∀ n, ParseInt (params.getD 3 "") = .ok n →
      ((mapIndex m (params.getD 2 "")).1 = none →
        (Create params m).1 = .error ⟨.badStringFormat,
          "Error deserializing feature description: unknown input feature " ++
            params.getD 2 ""⟩) ∧
      (∀ ptr, (mapIndex m (params.getD 2 "")).1 = some ptr →
        (Create params m).1 = .ok ⟨params.getD 0 "", ptr, n⟩)) ∧
    (∀ e, ParseInt (params.getD 3 "") = .error e →
      (Create params m).1 = .error e) := by
  rcases hmi : mapIndex m (params.getD 2 "") with ⟨v, m2⟩
  refine ⟨fun n hn => ⟨fun hnone => ?_, fun ptr hsome => ?_⟩, fun e he => ?_⟩
  · simp only at hnone
    subst hnone
    simp only [Create, hmi, hn]
  · simp only at hsome
    subst hsome
    simp only [Create, hmi, hn]
  · simp only [Create, hmi, he]

/-- Witness for the amended C6: a bound id and well-formed windowSize build
the feature. -/
theorem create_unknown_input_error_witness :
    (Create ["f", "t", "in", "4"] [("in", some ⟨0⟩)]).1 = .ok ⟨"f", ⟨0⟩, 4⟩ :=
  ((create_unknown_input_error ["f", "t", "in", "4"] [("in", some ⟨0⟩)]).1 4 rfl).2
    ⟨0⟩ rfl

/-- Claim C10: on the missing-input-feature path, looking up the unknown id
default-inserts a null entry into the registry before the error is thrown, so
the map is left mutated on failure. -/
theorem create_inserts_null_entry (params : List String) (m : FeatureMap)
    (habs : m.lookup (params.getD 2 "") = none) :
    (Create params m).2 = m ++ [(params.getD 2 "", none)] ∧
    ∃ e, (Create params m).1 = .error e := by
  have hmi : mapIndex m (params.getD 2 "") = (none, m ++ [(params.getD 2 "", none)]) := by
    simp only [mapIndex, habs]
  constructor
  · cases hp : ParseInt (params.getD 3 "") with
    | error e => simp only [Create, hmi, hp]
    | ok n => simp only [Create, hmi, hp]
  · cases hp : ParseInt (params.getD 3 "") with
    | error e => exact ⟨e, by simp only [Create, hmi, hp]⟩
    | ok n =>
      exact ⟨⟨.badStringFormat,
        "Error deserializing feature description: unknown input feature " ++
          params.getD 2 ""⟩, by simp only [Create, hmi, hp]⟩

/-- Witness for C10. -/
theorem create_inserts_null_entry_witness :
    (Create ["f", "t", "zzz", "3"] []).2 = [] ++ [("zzz", none)] ∧
    ∃ e, (Create ["f", "t", "zzz", "3"] []).1 = .error e :=
  create_inserts_null_entry ["f", "t", "zzz", "3"] [] rfl

/-- Claim C7: AddStandardPasses registers the verifier first, then the
function-level optimizations (inlining, loop and SLP vectorization), with the
module-level optimization sequence after them; on a malformed module the
pipeline fails fast with the verification error, before any optimization pass
(whatever its semantics) runs. -/
theorem addStandardPasses_order :
    ((addStandardPasses initialOptimizer).functionPasses =
      Pass.verifier ::
        [Pass.functionInlining 3 0, Pass.loopVectorize, Pass.slpVectorize]) ∧
    (∀ p ∈ [Pass.functionInlining 3 0, Pass.loopVectorize, Pass.slpVectorize],
      p.kind = .functionOpt) ∧
    ((addStandardPasses initialOptimizer).modulePasses = [Pass.moduleLevelOpt 3]) ∧
    (∀ p ∈ [Pass.moduleLevelOpt 3], p.kind = .moduleOpt) ∧
    (∀ (apply : Pass → LLVMModule → LLVMModule) (mod : LLVMModule),
      mod.wellFormed = false →
      runPasses apply ((addStandardPasses initialOptimizer).functionPasses ++
        (addStandardPasses initialOptimizer).modulePasses) mod =
          .error ⟨.illegalState, "Verification failed"⟩) := by
  refine ⟨rfl, by decide, rfl, by decide, ?_⟩
  intro apply mod hmod
  simp [addStandardPasses, initialOptimizer, populateFunctionPassManager,
    populateModulePassManager, runPasses, hmod]

/-- Witness for C7: the configured pipeline rejects a malformed module with
the verification error under an arbitrary optimization-pass semantics. -/
theorem addStandardPasses_order_witness :
    runPasses (fun _ mod => mod)
      ((addStandardPasses initialOptimizer).functionPasses ++
        (addStandardPasses initialOptimizer).modulePasses) ⟨false⟩ =
      .error ⟨.illegalState, "Verification failed"⟩ :=
  addStandardPasses_order.2.2.2.2 (fun _ mod => mod) ⟨false⟩ rfl

end Ell
